import Mathlib

/-!
Verification development for the AutoAV repository.

The definitions below are shallow embeddings of the Python source:

* `permissions/permission_manager.py` — path classification, the
  read/write/execute permission queries, the sudo grant state machine
  and `execute_sudo_command`;
* `inspector/file_inspector.py` — `read_file` and `_read_file_with_sudo`;
* `api/av_api.py` — the prototype `_read_file_with_sudo`;
* `tools/tool_registry.py` — the tool registry and `execute_tool`;
* `llm/openai_client.py` — `execute_tool_call`;
* `cli/session_manager.py` — the `investigate` loop.

Strings are modelled as `String` / `List Char`; `time.time()` values as `ℤ`;
OS facts (file existence, size, readability, MIME type, hash) as explicit
fields of a `FileModel` record threaded through the file operations.
-/

namespace AutoAV

/-!
## Path classification (`_is_restricted_path`)

`permission_manager.py` lines 110-119 and `file_inspector.py` lines 391-399:

```python
path_parts = Path(path).parts
for restricted_dir in self.restricted_dirs:
    if restricted_dir in path_parts:
        return True
return False
```

`Path(path).parts` for a POSIX path is: the root (`'/'`, or `'//'` for a
path starting with exactly two slashes) when the path is absolute, followed
by the non-empty, non-`'.'` components obtained by splitting on `'/'`.
`splitOnSlash` mirrors `str.split('/')`; `pathRoot` mirrors the pathlib
root rule; `pathParts` combines them exactly as `PurePosixPath.parts` does.
-/

def splitOnSlash : List Char → List (List Char)
  | [] => [[]]
  | c :: rest =>
    let r := splitOnSlash rest
    if c = '/' then [] :: r
    else (c :: r.headD []) :: r.tail

def pathRoot : List Char → Option (List Char)
  | '/' :: '/' :: '/' :: _ => some ['/']
  | '/' :: '/' :: _ => some ['/', '/']
  | '/' :: _ => some ['/']
  | _ => none

def pathParts (s : String) : List (List Char) :=
  let comps := (splitOnSlash s.data).filter (fun p => p ≠ [] ∧ p ≠ ['.'])
  match pathRoot s.data with
  | some r => r :: comps
  | none => comps

/-- `self.restricted_dirs = ['/System', '/Library', '/bin', '/sbin', '/usr']`
(`permission_manager.py` line 23, `file_inspector.py` line 31,
`api/av_api.py` line 12). -/
def restricted_dirs : List String := ["/System", "/Library", "/bin", "/sbin", "/usr"]

/-- `_is_restricted_path`: `True` iff some entry of `restricted_dirs` occurs
among `Path(path).parts`. -/
def is_restricted_path (path : String) : Bool :=
  restricted_dirs.any (fun d => (pathParts path).contains d.data)

theorem splitOnSlash_ne_nil (cs : List Char) : splitOnSlash cs ≠ [] := by
  cases cs with
  | nil => simp [splitOnSlash]
  | cons c rest =>
    simp only [splitOnSlash]
    split <;> simp

theorem mem_splitOnSlash_no_slash :
    ∀ (cs : List Char), ∀ p ∈ splitOnSlash cs, '/' ∉ p := by
  intro cs
  induction cs with
  | nil =>
    intro p hp
    simp [splitOnSlash] at hp
    simp [hp]
  | cons c rest ih =>
    intro p hp
    simp only [splitOnSlash] at hp
    by_cases hc : c = '/'
    · rw [if_pos hc] at hp
      rcases List.mem_cons.mp hp with h | h
      · simp [h]
      · exact ih p h
    · rw [if_neg hc] at hp
      rcases List.mem_cons.mp hp with h | h
      · subst h
        intro hmem
        rcases List.mem_cons.mp hmem with h' | h'
        · exact hc h'.symm
        · rcases hr : splitOnSlash rest with _ | ⟨q, qs⟩
          · exact splitOnSlash_ne_nil rest hr
          · rw [hr] at h'
            simp only [List.headD_cons] at h'
            exact ih q (by rw [hr]; exact List.mem_cons_self q qs) h'
      · rcases hr : splitOnSlash rest with _ | ⟨q, qs⟩
        · exact absurd hr (splitOnSlash_ne_nil rest)
        · rw [hr] at h
          simp only [List.tail_cons] at h
          exact ih p (by rw [hr]; exact List.mem_cons_of_mem q h)

theorem pathRoot_cases (cs : List Char) (r : List Char) (h : pathRoot cs = some r) :
    r = ['/'] ∨ r = ['/', '/'] := by
  unfold pathRoot at h
  split at h <;> simp_all

/-- No element of `Path(path).parts` can contain a slash together with another
character: every component is slash-free and the root is `/` or `//`. -/
theorem not_mem_pathParts (s : String) (d : List Char) (hs : '/' ∈ d)
    (h1 : d ≠ ['/']) (h2 : d ≠ ['/', '/']) : d ∉ pathParts s := by
  intro hmem
  unfold pathParts at hmem
  rcases hroot : pathRoot s.data with _ | r
  · rw [hroot] at hmem
    simp only at hmem
    have := mem_splitOnSlash_no_slash s.data d (List.mem_of_mem_filter hmem)
    exact this hs
  · rw [hroot] at hmem
    simp only at hmem
    rcases List.mem_cons.mp hmem with h | h
    · rcases pathRoot_cases s.data r hroot with hr | hr
      · exact h1 (h.trans hr)
      · exact h2 (h.trans hr)
    · have := mem_splitOnSlash_no_slash s.data d (List.mem_of_mem_filter h)
      exact this hs

/-- The restricted-directory check is unsatisfiable: every entry of
`restricted_dirs` contains a `'/'` and is neither `/` nor `//`, while every
element of `Path(path).parts` is either the root or slash-free. Hence
`_is_restricted_path` returns `False` on every input. -/
theorem is_restricted_path_always_false (path : String) :
    is_restricted_path path = false := by
  unfold is_restricted_path
  simp only [List.any_eq_false, List.contains_eq_any_beq]
  intro d hd
  fin_cases hd <;>
  · intro p
    simp only [List.any_eq_true, beq_iff_eq] at p
    obtain ⟨q, hq, hqd⟩ := p
    subst hqd
    exact not_mem_pathParts path _ (by decide) (by decide) (by decide) hq

/-- C1: the code classifies `/System/Library/LaunchDaemons/com.test.plist`
(resolved, absolute, lying directly under the restricted root `/System`) as
NOT restricted, because `'/System'` is compared against the slash-free
segments of `Path.parts`. This contradicts the claim that every path under a
restricted root is classified restricted. -/
theorem c1_system_path_not_classified_restricted :
    is_restricted_path "/System/Library/LaunchDaemons/com.test.plist" = false :=
  is_restricted_path_always_false _

/-!
## Read/write/execute permission queries

`permission_manager.py` lines 102-108:

```python
async def can_write_file(self, file_path: str) -> bool:
    return False  # AutoAV is read-only

async def can_execute_file(self, file_path: str) -> bool:
    return False  # AutoAV does not execute files
```
-/

def can_write_file (_file_path : String) : Bool := false

def can_execute_file (_file_path : String) : Bool := false

/-- C2: `can_write_file` and `can_execute_file` return `False` for every
input path; write and execute access is never reported as permitted. -/
theorem c2_write_execute_never_permitted (file_path : String) :
    can_write_file file_path = false ∧ can_execute_file file_path = false :=
  ⟨rfl, rfl⟩

/-!
## Tool registry and dispatch (`tools/tool_registry.py`, `llm/openai_client.py`)

`ToolRegistry.__init__` builds a static dict of nine tool names mapping to
the `_` wrapper coroutines. `execute_tool` (lines 204-210):

```python
if tool_name not in self.tools:
    return f"Error: Unknown tool '{tool_name}'"
result = await self.tools[tool_name](**arguments)
return result
```

There is no argument validation: the arguments dict is splatted straight
into the wrapper. CPython keyword binding raises `TypeError` (before the
coroutine body runs) iff some key names no declared parameter or some
parameter without a default receives no value; otherwise the wrapper (and
the underlying inspector operation) is invoked with whatever values were
supplied, whatever their types. `bindOk` is that binding rule; the wrapper
signatures are transcribed in `toolRegistry`.

`OpenAIClient.execute_tool_call` (lines 94-103) wraps the call in
`try/except` and converts a raised exception into the string
`f"Error executing {name}: ..."`; a string returned by `execute_tool`
(including the unknown-tool error string) is passed through unchanged.
-/

/-- A Python value as it arrives in a parsed JSON argument mapping. -/
inductive PyVal
  | str (s : String)
  | int (n : Int)
  | bool (b : Bool)
  | pynone
  deriving DecidableEq

/-- One declared parameter of a tool wrapper: its keyword name and whether
the Python signature gives it a default value. -/
structure Param where
  name : String
  hasDefault : Bool
  deriving DecidableEq

/-- The static registry (`self.tools`, `tool_registry.py` lines 19-29) with
each wrapper's keyword signature (lines 213-250). -/
def toolRegistry : List (String × List Param) :=
  [("list_processes", [⟨"filter", true⟩]),
   ("read_file", [⟨"path", false⟩, ⟨"max_size", true⟩]),
   ("scan_file", [⟨"path", false⟩]),
   ("find_files", [⟨"pattern", false⟩, ⟨"directory", true⟩, ⟨"max_results", true⟩]),
   ("get_file_info", [⟨"path", false⟩]),
   ("list_directory", [⟨"path", false⟩, ⟨"show_hidden", true⟩]),
   ("check_browser_extensions", [⟨"browser", true⟩]),
   ("check_startup_items", []),
   ("get_network_connections", [⟨"filter", true⟩])]

def registeredTools : List String := toolRegistry.map Prod.fst

def lookupTool (name : String) : Option (List Param) :=
  (toolRegistry.find? (fun e => e.1 == name)).map Prod.snd

/-- CPython `f(**arguments)` keyword binding succeeds iff every supplied key
names a declared parameter and every parameter without a default is
supplied. No type checking takes place. -/
def bindOk (params : List Param) (args : List (String × PyVal)) : Bool :=
  args.all (fun a => params.any (fun p => p.name == a.1)) &&
  params.all (fun p => p.hasDefault || args.any (fun a => a.1 == p.name))

/-- Outcome of `ToolRegistry.execute_tool`. -/
inductive ExecResult
  | unknownTool (name : String)
  | typeErr (name : String)
  | invoked (name : String) (args : List (String × PyVal))
  deriving DecidableEq

/-- `execute_tool` (`tool_registry.py` lines 204-210): unknown names return
the unknown-tool error string; otherwise the wrapper is called with the
splatted arguments — `typeErr` is the `TypeError` CPython raises when the
keyword binding fails, `invoked` means the underlying operation runs. -/
def execute_tool (name : String) (args : List (String × PyVal)) : ExecResult :=
  match lookupTool name with
  | none => .unknownTool name
  | some params => if bindOk params args then .invoked name args else .typeErr name

/-- Outcome of `OpenAIClient.execute_tool_call`. -/
inductive CallResult
  | unknownToolMsg (name : String)
  | opResult (name : String) (args : List (String × PyVal))
  | errorExecuting (name : String)
  deriving DecidableEq

/-- `execute_tool_call` (`openai_client.py` lines 94-103): returns whatever
`execute_tool` returns, converting a raised exception into an
`Error executing …` message. -/
def execute_tool_call (name : String) (args : List (String × PyVal)) : CallResult :=
  match execute_tool name args with
  | .unknownTool n => .unknownToolMsg n
  | .typeErr n => .errorExecuting n
  | .invoked n a => .opResult n a

theorem lookupTool_eq_none (name : String) (h : name ∉ registeredTools) :
    lookupTool name = none := by
  unfold lookupTool
  rw [List.find?_eq_none.mpr, Option.map_none']
  intro e he
  simp only [beq_iff_eq]
  intro heq
  exact h (List.mem_map.mpr ⟨e, he, heq⟩)

/-- C3: any tool name outside the static registry (exact string match, so
case or whitespace variants of registered names included) yields the
unknown-tool error and no underlying operation is ever invoked. -/
theorem c3_unknown_tool_rejected (name : String) (args : List (String × PyVal))
    (h : name ∉ registeredTools) :
    execute_tool name args = ExecResult.unknownTool name ∧
      ∀ t a, execute_tool name args ≠ ExecResult.invoked t a := by
  have hl : lookupTool name = none := lookupTool_eq_none name h
  unfold execute_tool
  rw [hl]
  exact ⟨rfl, fun t a => by simp⟩

/-- Witness for C3 at a whitespace variant of a registered name. -/
theorem c3_unknown_tool_rejected_witness :
    ("read_file " ∉ registeredTools) ∧
      (execute_tool "read_file " [] = ExecResult.unknownTool "read_file " ∧
        ∀ t a, execute_tool "read_file " [] ≠ ExecResult.invoked t a) :=
  ⟨by decide, c3_unknown_tool_rejected "read_file " [] (by decide)⟩

/-- C4 counterexample: `execute_tool` performs no type validation — a
`read_file` call whose `path` argument is the integer `5` (not a string, so
not type-conformant with the declared schema) is not rejected; the
underlying operation is invoked with it. -/
theorem c4_no_type_validation_counterexample :
    execute_tool "read_file" [("path", PyVal.int 5)] =
      ExecResult.invoked "read_file" [("path", PyVal.int 5)] := by rfl

/-- C4 (amended): only Python keyword binding guards invocation — for a
registered tool, an argument mapping with an undeclared key or a missing
required parameter raises `TypeError` before the operation body runs, which
`execute_tool_call` converts to an `Error executing …` result; values of
declared parameters are never type-checked. -/
theorem c4_binding_failure_raises_before_invocation (name : String)
    (params : List Param) (args : List (String × PyVal))
    (hreg : lookupTool name = some params)
    (hbad : (∃ a ∈ args, ∀ p ∈ params, a.1 ≠ p.name) ∨
            (∃ p ∈ params, p.hasDefault = false ∧ ∀ a ∈ args, a.1 ≠ p.name)) :
    execute_tool name args = ExecResult.typeErr name ∧
      execute_tool_call name args = CallResult.errorExecuting name ∧
      ∀ t a, execute_tool name args ≠ ExecResult.invoked t a := by
  have hb : bindOk params args = false := by
    cases hcase : bindOk params args with
    | false => rfl
    | true =>
      exfalso
      unfold bindOk at hcase
      rw [Bool.and_eq_true] at hcase
      obtain ⟨h1, h2⟩ := hcase
      rw [List.all_eq_true] at h1 h2
      rcases hbad with ⟨a, ha, hnone⟩ | ⟨p, hp, hnd, hnone⟩
      · have := h1 a ha
        rw [List.any_eq_true] at this
        obtain ⟨p, hp, heq⟩ := this
        exact hnone p hp (beq_iff_eq.mp heq).symm
      · have := h2 p hp
        rw [Bool.or_eq_true] at this
        rcases this with h | h
        · rw [hnd] at h
          exact Bool.false_ne_true h
        · rw [List.any_eq_true] at h
          obtain ⟨a, ha, heq⟩ := h
          exact hnone a ha (beq_iff_eq.mp heq)
  have he : execute_tool name args = ExecResult.typeErr name := by
    unfold execute_tool
    rw [hreg]
    simp [hb]
  refine ⟨he, ?_, fun t a => by rw [he]; simp⟩
  unfold execute_tool_call
  rw [he]

/-- Witness for the amended C4 at `read_file` called with no arguments
(required `path` missing). -/
theorem c4_binding_failure_witness :
    lookupTool "read_file" = some [⟨"path", false⟩, ⟨"max_size", true⟩] ∧
      ((∃ a ∈ ([] : List (String × PyVal)), ∀ p ∈ [Param.mk "path" false, Param.mk "max_size" true], a.1 ≠ p.name) ∨
       (∃ p ∈ [Param.mk "path" false, Param.mk "max_size" true], p.hasDefault = false ∧
          ∀ a ∈ ([] : List (String × PyVal)), a.1 ≠ p.name)) ∧
      (execute_tool "read_file" [] = ExecResult.typeErr "read_file" ∧
        execute_tool_call "read_file" [] = CallResult.errorExecuting "read_file" ∧
        ∀ t a, execute_tool "read_file" [] ≠ ExecResult.invoked t a) :=
  ⟨by rfl, by decide,
    c4_binding_failure_raises_before_invocation "read_file" _ [] (by rfl) (by decide)⟩

/-!
## File reading (`inspector/file_inspector.py`, `api/av_api.py`)

The OS-level facts about the target path are collected in a `FileModel`:
existence, regular-file flag, `stat` size, `os.access(..., R_OK)`, the MIME
type reported by `magic.from_file`, the MIME type sniffed by
`magic.from_buffer` from the first bytes of the content (used on the sudo
path), the content itself and its SHA-256 hex digest
(`_calculate_file_hash`). The outcomes of the two sudo subprocesses
(`stat -f %z` and `cat`) and of the interactive grant negotiation are
passed in as oracles; the branch structure is transcribed from the source.
-/

structure FileModel where
  fexists : Bool
  isFile : Bool
  size : Nat
  readable : Bool
  mime : String
  sniffedMime : String
  content : String
  sha256 : String
  deriving DecidableEq

/-- `str.startswith`, character by character. -/
def charsStartWith : List Char → List Char → Bool
  | [], _ => true
  | _ :: _, [] => false
  | c :: cs, d :: ds => c == d && charsStartWith cs ds

/-- The text/JSON/XML MIME allow-list test used at `file_inspector.py`
line 114 and 455 and `av_api.py` line 186:
`mime_type.startswith('text/') or mime_type in ['application/json',
'application/xml']`. -/
def mimeIsText (m : String) : Bool :=
  charsStartWith "text/".data m.data || m == "application/json" || m == "application/xml"

/-- `self.max_file_size = 10 * 1024 * 1024` (`file_inspector.py` line 28). -/
def max_file_size : Nat := 10 * 1024 * 1024

/-- `ToolRegistry._read_file` default `max_size` (`tool_registry.py`
line 218). -/
def registry_default_max_size : Nat := 10485760

/-- `PermissionManager.can_read_file` (lines 26-36): restricted paths go
through the sudo negotiation (result abstracted as `grantOracle`), all
others are answered by `os.access(..., R_OK)`. -/
def can_read_file (grantOracle : Bool) (path : String) (f : FileModel) : Bool :=
  if is_restricted_path path then grantOracle else f.readable

/-- Result of `FileInspector.read_file` / `_read_file_with_sudo`,
constructor by constructor in source order. -/
inductive InspectorRead
  | errNotExist
  | errNotFile
  | errTooLarge (size maxSize : Nat)
  | errPermission
  | textReply (mime : String) (size : Nat) (content : String)
  | binaryReply (mime : String) (size : Nat) (sha256 : String)
  | sudoErrSize
  | sudoErrTooLarge (size maxSize : Nat)
  | sudoErrRead
  | sudoTextReply (mime : String) (size : Nat) (content : String)
  | sudoBinaryReply (mime : String) (size : Nat)
  deriving DecidableEq

/-- `FileInspector._read_file_with_sudo` (lines 424-467): sudo `stat`, size
cap, sudo `cat`, buffer-sniffed MIME; text MIME returns the content, any
other MIME returns metadata only (no hash on this path). -/
def read_file_with_sudo (f : FileModel) (maxSize : Nat) (statOk catOk : Bool) :
    InspectorRead :=
  if !statOk then .sudoErrSize
  else if f.size > maxSize then .sudoErrTooLarge f.size maxSize
  else if !catOk then .sudoErrRead
  else if mimeIsText f.sniffedMime then .sudoTextReply f.sniffedMime f.size f.content
  else .sudoBinaryReply f.sniffedMime f.size

/-- `FileInspector.read_file` (lines 80-133): existence, regular-file and
size checks, then the permission gate (falling back to the sudo read only
for restricted paths), then the MIME split: text content is returned whole,
binary files yield metadata plus SHA-256 only. -/
def read_file (path : String) (f : FileModel) (grantOracle statOk catOk : Bool)
    (maxSize : Nat) : InspectorRead :=
  if !f.fexists then .errNotExist
  else if !f.isFile then .errNotFile
  else if f.size > maxSize then .errTooLarge f.size maxSize
  else if !(can_read_file grantOracle path f) then
    (if is_restricted_path path then read_file_with_sudo f maxSize statOk catOk
     else .errPermission)
  else if mimeIsText f.mime then .textReply f.mime f.size f.content
  else .binaryReply f.mime f.size f.sha256

/-- The raw file bytes a reply leaks into the transcript, if any. -/
def rawContent : InspectorRead → Option String
  | .textReply _ _ c => some c
  | .sudoTextReply _ _ c => some c
  | _ => none

/-- Result dict of the prototype `_read_file_with_sudo` in `api/av_api.py`;
`content` is always populated. -/
structure ApiSudoReply where
  file_path : String
  mime_type : String
  size_in_bytes : Nat
  content : String
  deriving DecidableEq

inductive ApiSudoRead
  | raiseStat
  | raiseTooLarge (size maxSize : Nat)
  | raiseCat
  | ok (r : ApiSudoReply)
  deriving DecidableEq

/-- `_read_file_with_sudo` (`av_api.py` lines 86-116): sudo `stat`, size
cap, sudo `cat`, then the dict `{file_path, mime_type, size_in_bytes,
content}` is returned for EVERY MIME type — the sniffed type is reported
but never gates the content. -/
def api_read_file_with_sudo (path : String) (f : FileModel) (maxSize : Nat)
    (statOk catOk : Bool) : ApiSudoRead :=
  if !statOk then .raiseStat
  else if f.size > maxSize then .raiseTooLarge f.size maxSize
  else if !catOk then .raiseCat
  else .ok ⟨path, f.sniffedMime, f.size, f.content⟩

/-- A small binary file (MIME outside the allow-list on both detectors),
readable only through the elevated path. -/
def c5File : FileModel :=
  { fexists := true, isFile := true, size := 5, readable := false,
    mime := "application/octet-stream", sniffedMime := "application/octet-stream",
    content := "MZbin", sha256 := "deadbeef" }

/-- C5 counterexample: the prototype elevated read path
(`api/av_api.py _read_file_with_sudo`, named by the claim) returns the raw
bytes of a file whose MIME type is outside the text/JSON/XML allow-list —
the `content` field carries the full file content. -/
theorem c5_api_sudo_path_returns_raw_bytes_counterexample :
    mimeIsText c5File.sniffedMime = false ∧
      api_read_file_with_sudo "/System/Library/bad.bin" c5File max_file_size true true =
        ApiSudoRead.ok ⟨"/System/Library/bad.bin", "application/octet-stream", 5, "MZbin"⟩ := by
  constructor
  · decide
  · rfl

/-- C5 (amended): on the inspector read paths — `FileInspector.read_file`
and its sudo helper — a file whose MIME type (as stat-based or
buffer-sniffed) is outside the allow-list never has its raw bytes returned:
the normal branch yields metadata plus SHA-256, the sudo branch metadata
only. The `api/av_api.py` prototype's elevated helper violates this (see
the counterexample), though it is unreachable from `api_read_file` because
`_is_restricted_path` never returns true. -/
theorem c5_inspector_read_never_leaks_binary (path : String) (f : FileModel)
    (grantOracle statOk catOk : Bool) (maxSize : Nat)
    (hm : mimeIsText f.mime = false) (hs : mimeIsText f.sniffedMime = false) :
    rawContent (read_file path f grantOracle statOk catOk maxSize) = none ∧
      rawContent (read_file_with_sudo f maxSize statOk catOk) = none := by
  have hsudo : rawContent (read_file_with_sudo f maxSize statOk catOk) = none := by
    unfold read_file_with_sudo
    split
    · rfl
    · split
      · rfl
      · split
        · rfl
        · rw [hs]
          simp [rawContent]
  refine ⟨?_, hsudo⟩
  unfold read_file
  split
  · rfl
  · split
    · rfl
    · split
      · rfl
      · split
        · split
          · exact hsudo
          · rfl
        · rw [hm]
          simp [rawContent]

/-- Witness for the amended C5 on a concrete binary file. -/
theorem c5_inspector_read_never_leaks_binary_witness :
    mimeIsText c5File.mime = false ∧ mimeIsText c5File.sniffedMime = false ∧
      (rawContent (read_file "/tmp/x.bin" c5File true true true max_file_size) = none ∧
        rawContent (read_file_with_sudo c5File max_file_size true true) = none) :=
  ⟨by decide, by decide,
    c5_inspector_read_never_leaks_binary "/tmp/x.bin" c5File true true true
      max_file_size (by decide) (by decide)⟩

/-- C7: for an existing regular file, an over-cap size yields the
`ResourceTooLarge` error carrying the measured size and the cap (checked
before anything is read, so content is never truncated); an in-cap readable
file is answered with its full content (text MIME) or its metadata and hash
(other MIME). The default cap is 10485760 bytes on both the inspector and
the registry wrapper. -/
theorem c7_read_size_cap (path : String) (f : FileModel)
    (grantOracle statOk catOk : Bool) (maxSize : Nat)
    (hex : f.fexists = true) (hfile : f.isFile = true) :
    (f.size > maxSize →
      read_file path f grantOracle statOk catOk maxSize =
        InspectorRead.errTooLarge f.size maxSize) ∧
    (f.size ≤ maxSize → f.readable = true →
      read_file path f grantOracle statOk catOk maxSize =
        (if mimeIsText f.mime then InspectorRead.textReply f.mime f.size f.content
         else InspectorRead.binaryReply f.mime f.size f.sha256)) ∧
    max_file_size = 10485760 ∧ registry_default_max_size = 10485760 := by
  refine ⟨?_, ?_, rfl, rfl⟩
  · intro hbig
    unfold read_file
    rw [hex, hfile]
    simp [hbig]
  · intro hsmall hread
    have hnb : ¬ f.size > maxSize := not_lt.mpr hsmall
    have hcan : can_read_file grantOracle path f = true := by
      unfold can_read_file
      rw [is_restricted_path_always_false]
      simpa using hread
    unfold read_file
    rw [hex, hfile, hcan]
    simp [hnb]

/-- A small readable text file. -/
def c7File : FileModel :=
  { fexists := true, isFile := true, size := 5, readable := true,
    mime := "text/plain", sniffedMime := "text/plain",
    content := "hello", sha256 := "cafe" }

/-- Witness for C7 on a concrete readable text file under the default cap. -/
theorem c7_read_size_cap_witness :
    c7File.fexists = true ∧ c7File.isFile = true ∧
      ((c7File.size > max_file_size →
        read_file "/tmp/a.txt" c7File false true true max_file_size =
          InspectorRead.errTooLarge c7File.size max_file_size) ∧
      (c7File.size ≤ max_file_size → c7File.readable = true →
        read_file "/tmp/a.txt" c7File false true true max_file_size =
          (if mimeIsText c7File.mime then
            InspectorRead.textReply c7File.mime c7File.size c7File.content
           else InspectorRead.binaryReply c7File.mime c7File.size c7File.sha256)) ∧
      max_file_size = 10485760 ∧ registry_default_max_size = 10485760) :=
  ⟨rfl, rfl, c7_read_size_cap "/tmp/a.txt" c7File false true true max_file_size rfl rfl⟩

/-!
## Privilege grant state and elevated execution
(`permissions/permission_manager.py`)

Grant state is `(sudo_granted, last_sudo_time, sudo_timeout)`
(constructor, lines 19-24; `sudo_timeout = 300`). `time.time()` values are
modelled as integers (`ℤ`): the grant logic only
subtracts and compares timestamps, and the claims use whole-second offsets,
so exact integer arithmetic is a faithful stand-in for `time.time()` floats. Python truthiness of `self.last_sudo_time` (`None` and
`0.0` are falsy) is `optTruthy`. The activity test written three times in
the source (lines 42-44, 125-127, 207-211) is
`sudo_granted and last_sudo_time and (now - last_sudo_time < sudo_timeout)`
— a pure comparison evaluated at each check; no check mutates the state.

Subprocess outcomes and the operator's console answer are supplied as an
environment (`SudoEnv`); `execute_sudo_command` is the branch structure of
lines 38-88 over that environment.
-/

def optTruthy : Option ℤ → Bool
  | none => false
  | some t => decide (t ≠ 0)

structure PermState where
  sudo_granted : Bool
  last_sudo_time : Option ℤ
  sudo_timeout : ℤ
  deriving DecidableEq

/-- `PermissionManager.__init__` (lines 19-22). -/
def initialPermState : PermState := ⟨false, none, 300⟩

/-- The lazy activity check: `sudo_granted and last_sudo_time and
(time.time() - last_sudo_time < sudo_timeout)`. -/
def sudoActive (st : PermState) (now : ℤ) : Bool :=
  st.sudo_granted && optTruthy st.last_sudo_time &&
    decide (now - st.last_sudo_time.getD 0 < st.sudo_timeout)

/-- `_request_sudo_access` (lines 121-149): an already-active grant is
reused; otherwise the operator is asked and, on approval, the self-test
decides whether the grant is (re)stamped at the current time. -/
def request_sudo_access (st : PermState) (now : ℤ) (userGrants selfTestOk : Bool) :
    Bool × PermState :=
  if sudoActive st now then (true, st)
  else if userGrants then
    (if selfTestOk then
      (true, { st with sudo_granted := true, last_sudo_time := some now })
     else (false, st))
  else (false, st)

/-- `reset_sudo_access` (lines 216-220). -/
def reset_sudo_access (st : PermState) : PermState :=
  { st with sudo_granted := false, last_sudo_time := none }

/-- Result of one subprocess run (`returncode`, decoded `stdout`,
decoded `stderr`). -/
structure ProcResult where
  returncode : Int
  stdout : String
  stderr : String
  deriving DecidableEq

/-- Environment for one `execute_sudo_command` call: the clock, the
outcome `_request_sudo_access` would produce, and the results the three
possible subprocess invocations would return. -/
structure SudoEnv where
  now : ℤ
  requestGranted : Bool
  activeRun : ProcResult
  nonInteractiveRun : ProcResult
  interactiveRun : ProcResult
  deriving DecidableEq

/-- The observable outcome of `execute_sudo_command`, one constructor per
`return` statement (lines 53, 67, 82, 84, 86, 88). -/
inductive ExecTrace
  | activeOutput (out : String)
  | nonInteractiveOk (out : String)
  | interactiveOk (out : String)
  | interactiveErr (stderr : String)
  | execError (stderr : String)
  | denied
  deriving DecidableEq

def lowerStr (s : String) : List Char := s.data.map Char.toLower

/-- Python substring test `needle in hay`. -/
def charsContain (needle : List Char) : List Char → Bool
  | [] => needle.isEmpty
  | c :: rest => charsStartWith needle (c :: rest) || charsContain needle rest

/-- The fallback heuristic of line 71:
`'password' in stderr_text or 'sudo' in stderr_text` on the lower-cased
stderr of the failed `sudo -n` attempt. -/
def credentialMarker (stderr : String) : Bool :=
  charsContain "password".data (lowerStr stderr) ||
    charsContain "sudo".data (lowerStr stderr)

/-- `execute_sudo_command` (lines 38-88). With an active grant the
`sudo -n` output is returned with no exit-status inspection; otherwise the
negotiation runs, then `sudo -n` is attempted, and an interactive retry
happens exactly when that attempt failed with the credential-marker
heuristic matching its stderr; other failures return the error string. -/
def execute_sudo_command (st : PermState) (env : SudoEnv) : ExecTrace :=
  if sudoActive st env.now then .activeOutput env.activeRun.stdout
  else if env.requestGranted then
    (if env.nonInteractiveRun.returncode == 0 then
      .nonInteractiveOk env.nonInteractiveRun.stdout
     else if credentialMarker env.nonInteractiveRun.stderr then
      (if env.interactiveRun.returncode == 0 then .interactiveOk env.interactiveRun.stdout
       else .interactiveErr env.interactiveRun.stderr)
     else .execError env.nonInteractiveRun.stderr)
  else .denied

/-- Whether a trace took the interactive (password-prompt) fallback. -/
def usedInteractive : ExecTrace → Bool
  | .interactiveOk _ => true
  | .interactiveErr _ => true
  | _ => false

/-- Environment of a non-interactive attempt that failed because the
command does not exist: sudo prefixes the message with `sudo:`, so the
lower-cased stderr contains the marker `sudo` but not `password`. -/
def notFoundEnv : SudoEnv :=
  { now := 1000, requestGranted := true,
    activeRun := ⟨0, "", ""⟩,
    nonInteractiveRun := ⟨1, "", "sudo: clamscan: command not found"⟩,
    interactiveRun := ⟨1, "", "clamscan: command not found"⟩ }

/-- C6 counterexample: for a non-interactive failure that is unrelated to
credentials (command not found — its stderr does not mention a password),
the code still takes the interactive fallback, because the heuristic also
fires on the substring `sudo`, which sudo prepends to every error it
prints. -/
theorem c6_commandnotfound_triggers_interactive_counterexample :
    charsContain "password".data (lowerStr notFoundEnv.nonInteractiveRun.stderr) = false ∧
      usedInteractive (execute_sudo_command initialPermState notFoundEnv) = true := by
  decide

/-- C6 (amended): when no active grant exists, the negotiation succeeded
and the non-interactive attempt failed, the interactive fallback is taken
exactly when the lower-cased stderr contains `password` or `sudo`; when it
contains neither, no fallback happens and the failure surfaces as the
error-string outcome. Because sudo prefixes its own messages with `sudo:`,
unrelated failures such as command-not-found do trigger the fallback. -/
theorem c6_interactive_fallback_iff_marker (st : PermState) (env : SudoEnv)
    (hactive : sudoActive st env.now = false)
    (hgrant : env.requestGranted = true)
    (hfail : env.nonInteractiveRun.returncode ≠ 0) :
    (usedInteractive (execute_sudo_command st env) = true ↔
      credentialMarker env.nonInteractiveRun.stderr = true) ∧
    (credentialMarker env.nonInteractiveRun.stderr = false →
      execute_sudo_command st env = ExecTrace.execError env.nonInteractiveRun.stderr) := by
  have hrc : (env.nonInteractiveRun.returncode == 0) = false := by
    simpa using hfail
  unfold execute_sudo_command
  rw [hactive, hgrant, hrc]
  simp only [Bool.false_eq_true, if_false, if_true]
  cases hmark : credentialMarker env.nonInteractiveRun.stderr with
  | true =>
    constructor
    · rw [if_pos rfl]
      simp only [hmark]
      cases hirc : (env.interactiveRun.returncode == 0) with
      | true => simp [usedInteractive]
      | false => simp [usedInteractive]
    · intro hcontra
      exact absurd hcontra (by simp)
  | false =>
    constructor
    · rw [if_neg (by simp)]
      simp [usedInteractive]
    · intro _
      rw [if_neg (by simp [hmark])]

/-- Witness for the amended C6: a credential-unrelated failure whose stderr
contains neither marker surfaces as the error outcome, with no fallback. -/
def plainFailEnv : SudoEnv :=
  { now := 1000, requestGranted := true,
    activeRun := ⟨0, "", ""⟩,
    nonInteractiveRun := ⟨1, "", "segmentation fault"⟩,
    interactiveRun := ⟨0, "ok", ""⟩ }

theorem c6_interactive_fallback_iff_marker_witness :
    sudoActive initialPermState plainFailEnv.now = false ∧
      plainFailEnv.requestGranted = true ∧
      plainFailEnv.nonInteractiveRun.returncode ≠ 0 ∧
      ((usedInteractive (execute_sudo_command initialPermState plainFailEnv) = true ↔
        credentialMarker plainFailEnv.nonInteractiveRun.stderr = true) ∧
      (credentialMarker plainFailEnv.nonInteractiveRun.stderr = false →
        execute_sudo_command initialPermState plainFailEnv =
          ExecTrace.execError plainFailEnv.nonInteractiveRun.stderr)) :=
  ⟨by decide, by decide, by decide,
    c6_interactive_fallback_iff_marker initialPermState plainFailEnv
      (by decide) (by decide) (by decide)⟩

/-- A grant stamped at time 1000 with the default 300-second timeout. -/
def grantedAt1000 : PermState := ⟨true, some 1000, 300⟩

/-- C8 counterexample: `reset_sudo_access` — an operation distinct from the
negotiation `_request_sudo_access` — also mutates the grant state: it turns
the active grant stamped at 1000 into an inactive cleared state. -/
theorem c8_reset_also_mutates_grant_counterexample :
    reset_sudo_access grantedAt1000 ≠ grantedAt1000 ∧
      sudoActive grantedAt1000 1100 = true ∧
      sudoActive (reset_sudo_access grantedAt1000) 1100 = false := by
  decide

/-- C8 (amended): a grant created at a real timestamp `T` with
`ttl = sudo_timeout = 300` is active at a check at time `now` iff
`now - T < 300` — strictly-less, so `T+299` is active and `T+300`, `T+301`
are inactive. The check is a pure comparison evaluated lazily at each call
site; the grant fields are written only by the negotiation
`_request_sudo_access` and by the explicit `reset_sudo_access`. -/
theorem c8_grant_ttl_boundary (T now : ℤ) (hT : T ≠ 0) :
    sudoActive ⟨true, some T, 300⟩ now = true ↔ now - T < 300 := by
  unfold sudoActive optTruthy
  simp [hT]

/-- Witness for the amended C8 at `T = 1000`: active at `T+299`, inactive
at `T+300` and `T+301`. -/
theorem c8_grant_ttl_boundary_witness :
    ((1000 : ℤ) ≠ 0 ∧
      (sudoActive ⟨true, some 1000, 300⟩ 1299 = true ↔ (1299 : ℤ) - 1000 < 300)) ∧
      sudoActive ⟨true, some 1000, 300⟩ 1299 = true ∧
      sudoActive ⟨true, some 1000, 300⟩ 1300 = false ∧
      sudoActive ⟨true, some 1000, 300⟩ 1301 = false :=
  ⟨⟨by decide, c8_grant_ttl_boundary 1000 1299 (by decide)⟩,
    by decide, by decide, by decide⟩

/-- C10: with an active grant, `execute_sudo_command` returns the
`sudo -n` stdout unconditionally — no branch looks at the exit status, so a
failing elevated command comes back as its (possibly empty) stdout with no
error outcome. -/
theorem c10_active_grant_ignores_exit_status (st : PermState) (env : SudoEnv)
    (h : sudoActive st env.now = true) :
    execute_sudo_command st env = ExecTrace.activeOutput env.activeRun.stdout := by
  unfold execute_sudo_command
  rw [h]
  simp

/-- Witness for C10: grant active, elevated command fails with exit code 1
and empty stdout — the outcome is still the plain (empty) output. -/
def failingActiveEnv : SudoEnv :=
  { now := 1100, requestGranted := false,
    activeRun := ⟨1, "", "cat: /System/secret: No such file"⟩,
    nonInteractiveRun := ⟨0, "", ""⟩,
    interactiveRun := ⟨0, "", ""⟩ }

theorem c10_active_grant_ignores_exit_status_witness :
    sudoActive grantedAt1000 failingActiveEnv.now = true ∧
      failingActiveEnv.activeRun.returncode ≠ 0 ∧
      execute_sudo_command grantedAt1000 failingActiveEnv = ExecTrace.activeOutput "" :=
  ⟨by decide, by decide,
    c10_active_grant_ignores_exit_status grantedAt1000 failingActiveEnv (by decide)⟩

/-!
## Investigation loop (`cli/session_manager.py`, lines 98-185)

```python
max_iterations = 10
iteration = 0
while iteration < max_iterations:
    response = await self.openai_client.get_response(...)
    ...
    if response.is_complete:
        return self._format_final_report(response.content)
    if response.tool_calls:
        ... execute tools, append results ...
    iteration += 1
return "Investigation reached maximum iterations. ..."
```

The reasoning service is abstracted as the stream `replies : ℕ → LLMReply`
giving the response obtained in each loop pass. The loop is fuel-structured
on `max_iterations - iteration`, which is exactly the `while` guard.
-/

/-- One tool-invocation request parsed from the reasoning-service reply
(`openai_client.py` `ToolCall`). -/
structure ToolCallReq where
  id : String
  name : String
  arguments : List (String × PyVal)

structure LLMReply where
  content : String
  tool_calls : List ToolCallReq
  is_complete : Bool

/-- Terminal outcomes of `investigate`: the final report built from the
completing reply's content (line 135), or the fixed maximum-iterations
report (line 185). `iterationsRun` counts executed loop-body passes. -/
inductive InvestigationOutcome
  | finalReport (content : String) (iterationsRun : ℕ)
  | maxIterationsReport (iterationsRun : ℕ)

/-- `max_iterations = 10` (line 98). -/
def max_iterations : ℕ := 10

def investigateLoop (replies : ℕ → LLMReply) : ℕ → ℕ → InvestigationOutcome
  | iteration, 0 => .maxIterationsReport iteration
  | iteration, fuel + 1 =>
    if (replies iteration).is_complete then
      .finalReport (replies iteration).content (iteration + 1)
    else investigateLoop replies (iteration + 1) fuel

/-- `SessionManager.investigate`, reduced to its termination-relevant
control flow. -/
def investigate (replies : ℕ → LLMReply) : InvestigationOutcome :=
  investigateLoop replies 0 max_iterations

def iterationsRun : InvestigationOutcome → ℕ
  | .finalReport _ n => n
  | .maxIterationsReport n => n

theorem investigateLoop_le (replies : ℕ → LLMReply) (fuel iteration : ℕ) :
    iterationsRun (investigateLoop replies iteration fuel) ≤ iteration + fuel := by
  induction fuel generalizing iteration with
  | zero => simp [investigateLoop, iterationsRun]
  | succ fuel ih =>
    unfold investigateLoop
    split
    · simp only [iterationsRun]
      omega
    · have := ih (iteration + 1)
      omega

theorem investigateLoop_never_complete (replies : ℕ → LLMReply)
    (h : ∀ i, (replies i).is_complete = false) (fuel iteration : ℕ) :
    investigateLoop replies iteration fuel = .maxIterationsReport (iteration + fuel) := by
  induction fuel generalizing iteration with
  | zero => simp [investigateLoop]
  | succ fuel ih =>
    unfold investigateLoop
    rw [h iteration]
    simp only [Bool.false_eq_true, if_false]
    rw [ih (iteration + 1)]
    congr 1
    omega

/-- C9: for every reply stream the loop runs at most
`max_iterations = 10` body passes and ends in one of the two terminal
outcomes; when no reply ever signals completion it ends in the
maximum-iterations report after exactly 10 passes. -/
theorem c9_loop_terminates_within_cap (replies : ℕ → LLMReply) :
    iterationsRun (investigate replies) ≤ max_iterations ∧
      max_iterations = 10 ∧
      ((∀ i, (replies i).is_complete = false) →
        investigate replies = InvestigationOutcome.maxIterationsReport 10) := by
  refine ⟨?_, rfl, ?_⟩
  · simpa using investigateLoop_le replies max_iterations 0
  · intro h
    simpa using investigateLoop_never_complete replies h max_iterations 0

/-- Witness for C9 on a reply stream that never signals completion. -/
theorem c9_loop_terminates_within_cap_witness :
    iterationsRun (investigate (fun _ => ⟨"", [], false⟩)) ≤ max_iterations ∧
      investigate (fun _ => ⟨"", [], false⟩) = InvestigationOutcome.maxIterationsReport 10 :=
  ⟨(c9_loop_terminates_within_cap (fun _ => ⟨"", [], false⟩)).1,
    (c9_loop_terminates_within_cap (fun _ => ⟨"", [], false⟩)).2.2 (fun _ => rfl)⟩

end AutoAV
